import Mathlib

set_option maxRecDepth 10000
set_option maxHeartbeats 1600000

/-!
Verification of the `sfml` (Snowflake ML Accelerator) glue layer.

Shallow embedding of the Python sources:
  * `src/sfml/config.py`            — configuration records, `load`, `from_dict`, `to_dict`
  * `src/sfml/session.py`           — the `lru_cache(maxsize=1)` session cache
  * `src/sfml/jobs/submit.py`       — `submit_file` / `submit_directory` precondition checks
  * `src/sfml/remote/setup.py`      — SQL rendering + best-effort statement execution
  * `src/sfml/remote/teardown.py`   — SQL rendering + best-effort statement execution
  * `src/sfml/remote/disconnect.py` — external-CLI outcome classification

Machine integers of Python are unbounded, so they are modelled by `Int`/`Nat`
directly.  Filesystems, credential stores, Snowflake sessions and the external
CLI are modelled as explicit parameters (functions / outcome values), so every
definition is executable.
-/

namespace Sfml

/-! ## Configuration (`src/sfml/config.py`) -/

/-- The `ComputeConfig` dataclass with its field defaults. -/
structure ComputeConfig where
  pool_name : String := "ml_dev_pool"
  instance_family : String := "CPU_X64_M"
  min_nodes : Int := 1
  max_nodes : Int := 1
  deriving Repr, DecidableEq

/-- The `StorageConfig` dataclass with its field defaults. -/
structure StorageConfig where
  stage_name : String := "DEV_STAGE"
  encryption : String := "SNOWFLAKE_SSE"
  deriving Repr, DecidableEq

/-- The `NetworkConfig` dataclass with its field defaults. -/
structure NetworkConfig where
  eai_name : String := "ALLOW_ALL_INTEGRATION"
  allow_ports : List Int := [443, 80]
  deriving Repr, DecidableEq

/-- The `ProjectConfig` dataclass with its field defaults. -/
structure ProjectConfig where
  name : String := "ml_dev"
  database : String := "ML_DEV"
  deriving Repr, DecidableEq

/-- The `Config` dataclass: `connection_name` plus the four sections. -/
structure Config where
  connection_name : String := "default"
  project : ProjectConfig := {}
  compute : ComputeConfig := {}
  storage : StorageConfig := {}
  network : NetworkConfig := {}
  deriving Repr, DecidableEq

/-- The parsed YAML shape of a `project:` section: each key may be absent. -/
structure ProjectDict where
  name : Option String := none
  database : Option String := none
  deriving Repr, DecidableEq

/-- The parsed YAML shape of a `compute:` section: each key may be absent. -/
structure ComputeDict where
  pool_name : Option String := none
  instance_family : Option String := none
  min_nodes : Option Int := none
  max_nodes : Option Int := none
  deriving Repr, DecidableEq

/-- The parsed YAML shape of a `storage:` section: each key may be absent. -/
structure StorageDict where
  stage_name : Option String := none
  encryption : Option String := none
  deriving Repr, DecidableEq

/-- The parsed YAML shape of a `network:` section: each key may be absent. -/
structure NetworkDict where
  eai_name : Option String := none
  allow_ports : Option (List Int) := none
  deriving Repr, DecidableEq

/-- The parsed YAML shape of a whole config file: every section may be absent.
A present-but-empty section is represented by `some {}` (all fields `none`);
Python's `SectionConfig(**{})` and the falsy-dict default branch coincide. -/
structure ConfigDict where
  connection_name : Option String := none
  project : Option ProjectDict := none
  compute : Option ComputeDict := none
  storage : Option StorageDict := none
  network : Option NetworkDict := none
  deriving Repr, DecidableEq

namespace Config

/-- Embedding of `Config.from_dict`: each `data.get(section, {})` falls back to the
dataclass defaults when the section is absent, and dataclass keyword
construction applies per-field defaults for absent keys. -/
def fromDict (data : ConfigDict) : Config :=
  { connection_name := data.connection_name.getD "default"
    project :=
      match data.project with
      | none => {}
      | some p => { name := p.name.getD "ml_dev", database := p.database.getD "ML_DEV" }
    compute :=
      match data.compute with
      | none => {}
      | some c =>
          { pool_name := c.pool_name.getD "ml_dev_pool"
            instance_family := c.instance_family.getD "CPU_X64_M"
            min_nodes := c.min_nodes.getD 1
            max_nodes := c.max_nodes.getD 1 }
    storage :=
      match data.storage with
      | none => {}
      | some s =>
          { stage_name := s.stage_name.getD "DEV_STAGE"
            encryption := s.encryption.getD "SNOWFLAKE_SSE" }
    network :=
      match data.network with
      | none => {}
      | some n =>
          { eai_name := n.eai_name.getD "ALLOW_ALL_INTEGRATION"
            allow_ports := n.allow_ports.getD [443, 80] } }

/-- Embedding of `Config.to_dict`: serialises every field, so every key is present. -/
def toDict (c : Config) : ConfigDict :=
  { connection_name := some c.connection_name
    project := some { name := some c.project.name, database := some c.project.database }
    compute :=
      some
        { pool_name := some c.compute.pool_name
          instance_family := some c.compute.instance_family
          min_nodes := some c.compute.min_nodes
          max_nodes := some c.compute.max_nodes }
    storage :=
      some
        { stage_name := some c.storage.stage_name
          encryption := some c.storage.encryption }
    network :=
      some
        { eai_name := some c.network.eai_name
          allow_ports := some c.network.allow_ports } }

/-- Search path used by `Config.load` when no explicit path is given. -/
def userConfigPath : String := "config/config.yaml"

/-- Fallback search path used by `Config.load`. -/
def defaultConfigPath : String := "config/default.yaml"

/-- The `path` computed by `Config.load`: the explicit argument when given,
else `config/config.yaml` when it exists, else `config/default.yaml`.  The
filesystem is abstracted as `fs : String → Option ConfigDict` (`none` = the
path does not exist, `some d` = the file exists and parses to `d`). -/
def resolvePath (config_path : Option String) (fs : String → Option ConfigDict) : String :=
  match config_path with
  | some p => p
  | none => if (fs userConfigPath).isSome then userConfigPath else defaultConfigPath

/-- Embedding of `Config.load`.  The Python code checks `path.exists()` and returns
`cls()` when the check fails — for explicit paths as well as for the searched
fallbacks — so the embedding's error channel (`Except`) is never used; it is
present so that the absence of a raised configuration error is expressible. -/
def load (config_path : Option String) (fs : String → Option ConfigDict) :
    Except String Config :=
  match fs (resolvePath config_path fs) with
  | none => .ok {}
  | some data => .ok (fromDict data)

end Config

/-! ## Session cache (`src/sfml/session.py`) -/

/-- Name resolution in `get_session` / `get_connection`:
`connection_name or os.getenv("SNOWFLAKE_CONNECTION_NAME", "myconnection")`.
Python `or` treats `None` and `""` as falsy; `os.getenv` with a default
returns the variable's value when set (even `""`), else the default. -/
def resolveConnName (connection_name : Option String) (env : Option String) : String :=
  match connection_name with
  | some a => if a ≠ "" then a else env.getD "myconnection"
  | none => env.getD "myconnection"

/-- State of `@lru_cache(maxsize=1)` on `get_session`: at most one cached
entry, keyed by the raw `connection_name` argument.  Session handles are
modelled as consecutive `Nat`s; `next` is the id the next freshly created
session would get, so distinct creations yield distinct handles. -/
structure SessionCache where
  slot : Option (Option String × Nat) := none
  next : Nat := 0
  deriving Repr, DecidableEq

/-- Body of `get_session` on a cache miss: resolve the name, look it up in
`~/.snowflake/config.toml` (`creds`; a `ValueError` when absent, which
`lru_cache` does not cache, leaving the state untouched), else connect and
cache the fresh handle, evicting any previous entry (`maxsize=1`). -/
def mkNewSession (connection_name : Option String) (env : Option String)
    (creds : String → Bool) (st : SessionCache) : Except String Nat × SessionCache :=
  let name := resolveConnName connection_name env
  if creds name then
    (.ok st.next, { slot := some (connection_name, st.next), next := st.next + 1 })
  else (.error ("Connection " ++ name ++ " not found in ~/.snowflake/config.toml"), st)

/-- Embedding of `get_session`.  On a cache hit (same raw `connection_name` argument as the
cached entry) the stored handle is returned and the state is untouched;
otherwise the body runs via `mkNewSession`. -/
def getSession (connection_name : Option String) (env : Option String)
    (creds : String → Bool) (st : SessionCache) : Except String Nat × SessionCache :=
  match st.slot with
  | some (k, s) =>
      if k = connection_name then (.ok s, st)
      else mkNewSession connection_name env creds st
  | none => mkNewSession connection_name env creds st

/-- Embedding of `clear_session_cache`: `get_session.cache_clear()` empties the slot. -/
def clearSessionCache (st : SessionCache) : SessionCache := { slot := none, next := st.next }

/-! ## String utilities mirroring the Python primitives used by the code -/

/-- Python's `"sep".join(xs)`. -/
def joinWith (sep : String) : List String → String
  | [] => ""
  | [x] => x
  | x :: y :: xs => x ++ sep ++ joinWith sep (y :: xs)

/-- The whitespace set of Python's `str.strip()` (ASCII part). -/
def isPyWhitespace (c : Char) : Bool :=
  c = ' ' || c = '\t' || c = '\n' || c = '\r' || c = '\x0b' || c = '\x0c'

/-- Python's `str.strip()` on a character list. -/
def stripChars (s : List Char) : List Char :=
  ((s.dropWhile isPyWhitespace).reverse.dropWhile isPyWhitespace).reverse

/-- Python's `s.split(";")`: split on every `';'`, keeping empty pieces. -/
def splitOnSemi : List Char → List (List Char)
  | [] => [[]]
  | c :: cs =>
      if c = ';' then [] :: splitOnSemi cs
      else
        match splitOnSemi cs with
        | [] => [[c]]
        | t :: ts => (c :: t) :: ts

/-! ## Infrastructure setup / teardown
(`src/sfml/remote/setup.py`, `src/sfml/remote/teardown.py`) -/

/-- The statement list both `setup` and `teardown` execute:
`[s.strip() for s in sql.split(";") if s.strip() and not s.strip().startswith("--")]`. -/
def splitStatements (sql : String) : List String :=
  (((splitOnSemi sql.data).map stripChars).filter
    (fun t => !t.isEmpty && !("--".data.isPrefixOf t))).map String.mk

/-- Best-effort execution: every statement of the list is attempted against
the session in order; a failing statement (`exec s = false`) is logged and
execution continues with the next one — no rollback, so the attempt list
never depends on earlier failures. -/
def runStatements (exec : String → Bool) (stmts : List String) : List (String × Bool) :=
  stmts.map (fun s => (s, exec s))

/-- Resolution `pool_name = pool_name or f"{project_name}_pool"`
(Python `or`: `None` and `""` are falsy). -/
def resolvePoolName (pool_name : Option String) (project_name : String) : String :=
  match pool_name with
  | some p => if p ≠ "" then p else project_name ++ "_pool"
  | none => project_name ++ "_pool"

/-- Resolution `allow_ports = allow_ports or [443, 80]`
(Python `or`: `None` and `[]` are falsy). -/
def resolvePorts (allow_ports : Option (List Int)) : List Int :=
  match allow_ports with
  | some l => if l ≠ [] then l else [443, 80]
  | none => [443, 80]

/-- Rendering `", ".join([f"'0.0.0.0:{port}'" for port in allow_ports])`. -/
def portListSql (allow_ports : List Int) : String :=
  joinWith ", " (allow_ports.map (fun port => "'0.0.0.0:" ++ toString port ++ "'"))

/-- The f-string template of `setup` (the literal text between interpolation
slots is additionally split at the compute-pool statement boundaries, which
changes nothing about the resulting string). -/
def setupSql (project_name database instance_family stage_name pool_name eai_name
    port_list : String) (min_nodes max_nodes : Int) : String :=
  "-- Snowflake Remote Dev Setup\n-- Project: " ++ project_name ++
  "\n\nUSE ROLE ACCOUNTADMIN;\n\n-- Create Database\nCREATE DATABASE IF NOT EXISTS " ++
  database ++ ";\nUSE DATABASE " ++ database ++
  ";\n\n-- Create Network Rule for External Access\nCREATE OR REPLACE NETWORK RULE " ++
  eai_name ++ "_rule\n  MODE = EGRESS\n  TYPE = HOST_PORT\n  VALUE_LIST = (" ++
  port_list ++ ");\n\n-- Create External Access Integration\nCREATE OR REPLACE EXTERNAL ACCESS INTEGRATION " ++
  eai_name ++ "\n  ALLOWED_NETWORK_RULES = (" ++ eai_name ++
  "_rule)\n  ENABLED = true;\n\n-- Grant permissions\nGRANT USAGE ON INTEGRATION " ++
  eai_name ++ " TO ROLE ACCOUNTADMIN;\n\n-- Create Stage for Persistent Storage\nCREATE STAGE IF NOT EXISTS " ++
  stage_name ++ "\n  ENCRYPTION = (TYPE = 'SNOWFLAKE_SSE');\n\n-- Create Compute Pool\n" ++
  "CREATE COMPUTE POOL IF NOT EXISTS " ++ pool_name ++
  "\n  MIN_NODES = " ++ toString min_nodes ++
  "\n  MAX_NODES = " ++ toString max_nodes ++
  "\n  INSTANCE_FAMILY = " ++ instance_family ++ ";" ++
  "\n\n-- Show created resources\nSHOW COMPUTE POOLS LIKE '" ++ pool_name ++ "';\n"

/-- The result dictionary of `setup` (resource names, rendered SQL, status). -/
structure SetupResult where
  database : String
  compute_pool : String
  stage : String
  eai_name : String
  instance_family : String
  sql : String
  status : String
  deriving Repr, DecidableEq

/-- The `setup` function: resolves the pool name and ports, renders the SQL
and returns the result record with `status = "complete"` when `execute` is
set (the execution itself is `runStatements` over `splitStatements` of the
rendered SQL) and `status = "sql_generated"` otherwise. -/
def setup (project_name database instance_family stage_name : String)
    (pool_name : Option String) (eai_name : String) (allow_ports : Option (List Int))
    (min_nodes max_nodes : Int) (execute : Bool) : SetupResult :=
  let pool := resolvePoolName pool_name project_name
  let ports := resolvePorts allow_ports
  let sql := setupSql project_name database instance_family stage_name pool eai_name
    (portListSql ports) min_nodes max_nodes
  { database := database
    compute_pool := pool
    stage := stage_name
    eai_name := eai_name
    instance_family := instance_family
    sql := sql
    status := if execute then "complete" else "sql_generated" }

/-- The `sql_parts` list built by `teardown`. -/
def teardownSqlParts (project_name database pool_name stage_name eai_name : String)
    (keep_stage keep_database : Bool) : List String :=
  ["-- Teardown for project: " ++ project_name, "USE ROLE ACCOUNTADMIN;"] ++
  ["\n-- Suspend and drop compute pool",
   "ALTER COMPUTE POOL IF EXISTS " ++ pool_name ++ " STOP ALL;",
   "ALTER COMPUTE POOL IF EXISTS " ++ pool_name ++ " SUSPEND;",
   "DROP COMPUTE POOL IF EXISTS " ++ pool_name ++ ";"] ++
  ["\n-- Drop External Access Integration",
   "DROP INTEGRATION IF EXISTS " ++ eai_name ++ ";",
   "DROP NETWORK RULE IF EXISTS " ++ database ++ ".PUBLIC." ++ eai_name ++ "_rule;"] ++
  (if keep_stage then [] else
    ["\n-- Drop Stage (WARNING: deletes all files!)",
     "DROP STAGE IF EXISTS " ++ database ++ ".PUBLIC." ++ stage_name ++ ";"]) ++
  (if keep_database then [] else
    ["\n-- Drop Database", "DROP DATABASE IF EXISTS " ++ database ++ ";"])

/-- The result dictionary of `teardown`. -/
structure TeardownResult where
  project_name : String
  database : String
  compute_pool : String
  stage_preserved : Bool
  database_preserved : Bool
  sql : String
  status : String
  deriving Repr, DecidableEq

/-- The `teardown` function: `sql = "\n".join(sql_parts)`, with the stage and
database dropped only when explicitly requested; `status` as in `setup`. -/
def teardown (project_name database : String) (pool_name : Option String)
    (stage_name eai_name : String) (keep_stage keep_database execute : Bool) :
    TeardownResult :=
  let pool := resolvePoolName pool_name project_name
  let sql := joinWith "\n"
    (teardownSqlParts project_name database pool stage_name eai_name keep_stage keep_database)
  { project_name := project_name
    database := database
    compute_pool := pool
    stage_preserved := keep_stage
    database_preserved := keep_database
    sql := sql
    status := if execute then "complete" else "sql_generated" }

/-! ## Substring occurrence counting (for the statement-shape claims) -/

/-- Number of positions of `s` at which the pattern `P` occurs. -/
def cnt (P : List Char) : List Char → Nat
  | [] => 0
  | c :: cs => (if P.isPrefixOf (c :: cs) then 1 else 0) + cnt P cs

/-- No occurrence of `P` starting inside `x` can overhang the end of `x`:
at every suffix position either a full match still fits inside `x`, or the
suffix is not a prefix of `P`.  Appending text after `x` then cannot create
new occurrences starting inside `x`. -/
def straddleFree (P : List Char) : List Char → Bool
  | [] => true
  | c :: x' => (decide (P.length ≤ x'.length + 1) || !((c :: x').isPrefixOf P)) && straddleFree P x'

/-- A string is inert for pattern `P`: `P` does not occur in it, and no
occurrence of `P` can straddle its end.  All SQL identifier arguments below
are assumed inert for the patterns counted — this is §6 of the spec:
"no escaping/parameterization, callers must supply safe identifiers". -/
def SqlSafe (P : List Char) (s : String) : Prop :=
  cnt P s.data = 0 ∧ straddleFree P s.data = true

/-- Concatenation of a chunk decomposition. -/
def joinAll : List (List Char) → List Char
  | [] => []
  | k :: ks => k ++ joinAll ks

/-- The header of the compute-pool creation statement. -/
def poolPat : List Char := "CREATE COMPUTE POOL IF NOT EXISTS".data

/-- The header of any stage-dropping statement. -/
def dropStagePat : List Char := "DROP STAGE".data

/-- The header of any database-dropping statement. -/
def dropDatabasePat : List Char := "DROP DATABASE".data

/-- The full header of the guarded stage-dropping statement. -/
def dropStageStmtPat : List Char := "DROP STAGE IF EXISTS".data

/-- Inertness with respect to all three teardown patterns. -/
def DropSafe (s : String) : Prop :=
  SqlSafe dropStagePat s ∧ SqlSafe dropDatabasePat s ∧ SqlSafe dropStageStmtPat s

/-! ## Job submission (`src/sfml/jobs/submit.py`) -/

/-- External interactions a submission may perform, in order. -/
inductive RemoteCall where
  | getSession (connection_name : Option String)
  | submitFileApi (path : String) (compute_pool : String)
  | submitDirectoryApi (dir : String) (entrypoint : String) (compute_pool : String)
  deriving Repr, DecidableEq

/-- The job handle returned by the external submission API. -/
structure Job where
  id : String
  status : String
  deriving Repr, DecidableEq

/-- Embedding of `submit_file` (the `wait=False` shape): the local existence check runs
first; a missing path raises `FileNotFoundError` before `get_session` and
before the external submission API is reached.  The filesystem is the
`fileExists` flag for `file_path`; the external API's answer is the `job`
parameter.  The second component lists the external interactions performed. -/
def submit_file (fileExists : Bool) (file_path : String) (compute_pool : String)
    (connection_name : Option String) (job : Job) : Except String Job × List RemoteCall :=
  if fileExists then
    (.ok job, [.getSession connection_name, .submitFileApi file_path compute_pool])
  else (.error ("File not found: " ++ file_path), [])

/-- Embedding of `submit_directory` (the `wait=False` shape): the local existence check on
`dir_path` runs first; a missing path raises `FileNotFoundError` before
`get_session` and before the external submission API is reached. -/
def submit_directory (dirExists : Bool) (dir_path : String) (entrypoint : String)
    (compute_pool : String) (connection_name : Option String) (job : Job) :
    Except String Job × List RemoteCall :=
  if dirExists then
    (.ok job, [.getSession connection_name, .submitDirectoryApi dir_path entrypoint compute_pool])
  else (.error ("Directory not found: " ++ dir_path), [])

/-! ## Disconnect (`src/sfml/remote/disconnect.py`) -/

/-- Outcome of running the external `snow remote stop` CLI. -/
inductive CliOutcome where
  | ran (returncode : Int) (stderr : String)
  | binaryMissing
  | raised
  deriving Repr, DecidableEq

/-- Substring test on character lists: does `pat` occur contiguously? -/
def containsSub (pat : List Char) : List Char → Bool
  | [] => pat.isEmpty
  | c :: cs => pat.isPrefixOf (c :: cs) || containsSub pat cs

/-- Python's substring test `pat in s`. -/
def strContains (s pat : String) : Bool := containsSub pat.data s.data

/-- Python's `str.lower()` (the strings involved are ASCII). -/
def lowerStr (s : String) : String := ⟨s.data.map Char.toLower⟩

/-- Embedding of `disconnect`: exit code 0 is success; a non-zero exit whose stderr
(lowercased) contains "not found" or "does not exist" is treated as success
(already stopped); any other non-zero exit, a missing `snow` binary
(`FileNotFoundError`) and any other exception are failures. -/
def disconnect (outcome : CliOutcome) : Bool :=
  match outcome with
  | .ran returncode stderr =>
      if returncode = 0 then true
      else if strContains (lowerStr stderr) "not found" || strContains (lowerStr stderr) "does not exist" then
        true
      else false
  | .binaryMissing => false
  | .raised => false

end Sfml

/-! ## Theorems -/

namespace Sfml

/-- C10: serialising a `Config` and reconstructing it is the identity. -/
theorem Config.fromDict_toDict (c : Config) : Config.fromDict (Config.toDict c) = c := rfl

/-- C6: sections absent from the input dictionary come out as the documented
defaults; in particular an absent `network` section yields
`allow_ports = [443, 80]` and `eai_name = "ALLOW_ALL_INTEGRATION"`. -/
theorem Config.fromDict_defaults (d : ConfigDict) :
    (d.project = none → (Config.fromDict d).project = { name := "ml_dev", database := "ML_DEV" }) ∧
    (d.compute = none → (Config.fromDict d).compute =
      { pool_name := "ml_dev_pool", instance_family := "CPU_X64_M", min_nodes := 1, max_nodes := 1 }) ∧
    (d.storage = none → (Config.fromDict d).storage =
      { stage_name := "DEV_STAGE", encryption := "SNOWFLAKE_SSE" }) ∧
    (d.network = none → (Config.fromDict d).network =
      { eai_name := "ALLOW_ALL_INTEGRATION", allow_ports := [443, 80] }) := by
  refine ⟨fun h => ?_, fun h => ?_, fun h => ?_, fun h => ?_⟩ <;>
    simp [Config.fromDict, h]

/-- C6 witness: the empty dictionary (all sections absent) yields all defaults. -/
theorem Config.fromDict_defaults_witness :
    ({} : ConfigDict).project = none ∧
    (Config.fromDict {}).network = { eai_name := "ALLOW_ALL_INTEGRATION", allow_ports := [443, 80] } := by
  refine ⟨rfl, ?_⟩
  exact (Config.fromDict_defaults {}).2.2.2 rfl

/-- C2 counterexample: an explicitly given path that does not exist (the
filesystem maps every path to `none`) does not raise a configuration error —
`load` returns the built-in default configuration, contradicting the claim
that `load` raises exactly in this situation. -/
theorem Config.load_missing_explicit_no_error :
    (fun _ => none : String → Option ConfigDict) "missing.yaml" = none ∧
    Config.load (some "missing.yaml") (fun _ => none) = Except.ok ({} : Config) :=
  ⟨rfl, rfl⟩

/-- C2 (amended): `Config.load` never raises a configuration error: an
explicitly given path that does not exist yields the built-in defaults, just
as the absence of both searched fallback files does. -/
theorem Config.load_total (config_path : Option String) (fs : String → Option ConfigDict) :
    (∀ e, Config.load config_path fs ≠ .error e) ∧
    (∀ p, config_path = some p → fs p = none → Config.load config_path fs = .ok {}) ∧
    (config_path = none → fs Config.userConfigPath = none →
      fs Config.defaultConfigPath = none → Config.load config_path fs = .ok {}) := by
  refine ⟨?_, ?_, ?_⟩
  · intro e h
    unfold Config.load at h
    rcases heq : fs (Config.resolvePath config_path fs) with _ | d <;> simp [heq] at h
  · rintro p rfl hfs
    simp [Config.load, Config.resolvePath, hfs]
  · rintro rfl hu hd
    simp [Config.load, Config.resolvePath, hu, hd]

/-- C2 witness: `load_total` applied at a concrete missing explicit path and
at the no-path/no-files situation. -/
theorem Config.load_total_witness :
    Config.load (some "nope.yaml") (fun _ => none) = .ok {} ∧
    Config.load none (fun _ => none) = .ok {} :=
  ⟨(Config.load_total (some "nope.yaml") (fun _ => none)).2.1 "nope.yaml" rfl rfl,
   (Config.load_total none (fun _ => none)).2.2 rfl rfl rfl⟩

/-- A successful miss-path call returns the counter as handle and caches it. -/
theorem mkNewSession_ok (a : Option String) (env : Option String) (creds : String → Bool)
    (st : SessionCache) (s : Nat) (st' : SessionCache)
    (h : mkNewSession a env creds st = (.ok s, st')) :
    s = st.next ∧ st' = { slot := some (a, st.next), next := st.next + 1 } := by
  by_cases hc : creds (resolveConnName a env) = true <;> simp [mkNewSession, hc] at h
  exact ⟨h.1.symm, h.2.symm⟩

/-- A successful `get_session` call is either a cache hit (state unchanged)
or creates and caches a fresh session. -/
theorem getSession_ok_cases (a : Option String) (env : Option String) (creds : String → Bool)
    (st : SessionCache) (s : Nat) (st' : SessionCache)
    (h : getSession a env creds st = (.ok s, st')) :
    (st.slot = some (a, s) ∧ st' = st) ∨
    (s = st.next ∧ st' = { slot := some (a, st.next), next := st.next + 1 }) := by
  rcases hslot : st.slot with _ | ⟨k, s0⟩ <;> simp only [getSession, hslot] at h
  · exact Or.inr (mkNewSession_ok a env creds st s st' h)
  · by_cases hk : k = a
    · rw [if_pos hk] at h
      injection h with h1 h2
      injection h1 with h1
      exact Or.inl ⟨by rw [hk, h1], h2.symm⟩
    · rw [if_neg hk] at h
      exact Or.inr (mkNewSession_ok a env creds st s st' h)

/-- After a successful `get_session` call, the cache slot holds exactly the
raw argument and the returned handle. -/
theorem getSession_ok_slot (a : Option String) (env : Option String) (creds : String → Bool)
    (st : SessionCache) (s : Nat) (st' : SessionCache)
    (h : getSession a env creds st = (.ok s, st')) : st'.slot = some (a, s) := by
  rcases getSession_ok_cases a env creds st s st' h with ⟨h1, h2⟩ | ⟨h1, h2⟩ <;> subst h2
  · exact h1
  · rw [h1]

/-- A successful `get_session` call keeps the returned handle below the
freshness counter when the cached one was below it before. -/
theorem getSession_ok_next (a : Option String) (env : Option String) (creds : String → Bool)
    (st : SessionCache) (s : Nat) (st' : SessionCache)
    (hwf : ∀ k s0, st.slot = some (k, s0) → s0 < st.next)
    (h : getSession a env creds st = (.ok s, st')) : s < st'.next := by
  rcases getSession_ok_cases a env creds st s st' h with ⟨h1, h2⟩ | ⟨h1, h2⟩ <;> subst h2
  · exact hwf a s h1
  · simp [h1]

/-- C3 counterexample: starting from an empty cache, a call with connection
name "a" followed directly by a call with the distinct name "b" — with no
intervening cache-clear — replaces the cached handle and returns a brand-new
handle (`1 ≠ 0`), contradicting the claim that the old handle is kept until
an explicit cache-clear. -/
theorem getSession_distinct_replaces :
    (getSession (some "a") none (fun _ => true) {}).1 = .ok 0 ∧
    (getSession (some "b") none (fun _ => true)
        (getSession (some "a") none (fun _ => true) {}).2).1 = .ok 1 ∧
    (getSession (some "b") none (fun _ => true)
        (getSession (some "a") none (fun _ => true) {}).2).2.slot = some (some "b", 1) :=
  ⟨rfl, rfl, rfl⟩

/-- C3 (amended): the cache is an `lru_cache(maxsize=1)` keyed by the raw
connection-name argument: after a successful call with name `a`, a call with
a distinct name `b` (present in the credential store) immediately creates a
fresh session handle and caches it in place of the old one — no explicit
cache-clear is required. -/
theorem getSession_switch (a b : Option String) (env : Option String) (creds : String → Bool)
    (st : SessionCache) (s : Nat) (st' : SessionCache) (hab : a ≠ b)
    (hb : creds (resolveConnName b env) = true)
    (h : getSession a env creds st = (.ok s, st')) :
    getSession b env creds st' =
      (.ok st'.next, { slot := some (b, st'.next), next := st'.next + 1 }) := by
  have hslot := getSession_ok_slot a env creds st s st' h
  unfold getSession
  rw [hslot]
  simp [hab, mkNewSession, hb]

/-- C3 witness: `getSession_switch` at names "a" and "b" from the state a
first call with "a" produced. -/
theorem getSession_switch_witness :
    getSession (some "b") none (fun _ => true) { slot := some (some "a", 0), next := 1 } =
      (.ok 1, { slot := some (some "b", 1), next := 2 }) :=
  getSession_switch (some "a") (some "b") none (fun _ => true) {} 0
    { slot := some (some "a", 0), next := 1 } (by decide) rfl rfl

/-- C8: a second `get_session` call with the same connection name and no
intervening cache-clear returns the identical handle and creates no second
connection (the state, including the freshness counter, is unchanged); after
a cache-clear, a call with any name present in the credential store returns a
handle that is genuinely new (distinct from the first one). -/
theorem getSession_idempotent (a : Option String) (env : Option String) (creds : String → Bool)
    (st : SessionCache) (s : Nat) (st' : SessionCache)
    (hwf : ∀ k s0, st.slot = some (k, s0) → s0 < st.next)
    (h : getSession a env creds st = (.ok s, st')) :
    getSession a env creds st' = (.ok s, st') ∧
    (∀ b, creds (resolveConnName b env) = true →
      getSession b env creds (clearSessionCache st') =
        (.ok st'.next, { slot := some (b, st'.next), next := st'.next + 1 }) ∧
      s ≠ st'.next) := by
  have hslot := getSession_ok_slot a env creds st s st' h
  have hlt := getSession_ok_next a env creds st s st' hwf h
  refine ⟨?_, ?_⟩
  · unfold getSession
    rw [hslot]
    simp
  · intro b hb
    refine ⟨?_, Nat.ne_of_lt hlt⟩
    simp [getSession, clearSessionCache, mkNewSession, hb]

/-- C8 witness: `getSession_idempotent` from the empty cache with name "a",
then a post-clear call with name "b". -/
theorem getSession_idempotent_witness :
    getSession (some "a") none (fun _ => true) { slot := some (some "a", 0), next := 1 } =
      (.ok 0, { slot := some (some "a", 0), next := 1 }) ∧
    getSession (some "b") none (fun _ => true)
        (clearSessionCache { slot := some (some "a", 0), next := 1 }) =
      (.ok 1, { slot := some (some "b", 1), next := 2 }) := by
  have h := getSession_idempotent (some "a") none (fun _ => true) {} 0
    { slot := some (some "a", 0), next := 1 } (by intro k s0 hk; cases hk) rfl
  exact ⟨h.1, (h.2 (some "b") rfl).1⟩

/-- C7: a nonexistent local path makes `submit_file` / `submit_directory`
fail with a not-found error while performing no external interaction at all —
in particular no session is obtained and the submission API is not called. -/
theorem submit_missing_path_no_network (pathExists : Bool)
    (file_path dir_path entrypoint compute_pool : String)
    (connection_name : Option String) (job : Job)
    (h : pathExists = false) :
    submit_file pathExists file_path compute_pool connection_name job =
      (.error ("File not found: " ++ file_path), []) ∧
    submit_directory pathExists dir_path entrypoint compute_pool connection_name job =
      (.error ("Directory not found: " ++ dir_path), []) := by
  subst h
  exact ⟨rfl, rfl⟩

/-- C7 witness: concrete missing paths. -/
theorem submit_missing_path_no_network_witness :
    submit_file false "train.py" "GPU_POOL" none { id := "j", status := "PENDING" } =
      (.error "File not found: train.py", []) ∧
    submit_directory false "proj" "main.py" "GPU_POOL" none { id := "j", status := "PENDING" } =
      (.error "Directory not found: proj", []) :=
  submit_missing_path_no_network false "train.py" "proj" "main.py" "GPU_POOL" none
    { id := "j", status := "PENDING" } rfl

/-- C9: on a non-zero CLI exit, `disconnect` succeeds exactly when the
lowercased stderr contains "not found" or "does not exist"; a missing `snow`
binary (and any other exception) is a failure. -/
theorem disconnect_not_found_is_success (returncode : Int) (stderr : String)
    (h : returncode ≠ 0) :
    (disconnect (.ran returncode stderr) = true ↔
      (strContains (lowerStr stderr) "not found" = true ∨
       strContains (lowerStr stderr) "does not exist" = true)) ∧
    disconnect .binaryMissing = false ∧
    disconnect .raised = false := by
  refine ⟨?_, rfl, rfl⟩
  simp only [disconnect, if_neg h]
  constructor
  · intro hd
    by_cases h1 : strContains (lowerStr stderr) "not found" = true
    · exact Or.inl h1
    · by_cases h2 : strContains (lowerStr stderr) "does not exist" = true
      · exact Or.inr h2
      · simp [h1, h2] at hd
  · rintro (h1 | h1) <;> simp [h1]

/-- Matching a pattern against an append is decided inside the first part
when the pattern fits into it. -/
theorem isPrefixOf_append_of_le (P u v : List Char) (h : P.length ≤ u.length) :
    P.isPrefixOf (u ++ v) = P.isPrefixOf u := by
  rw [Bool.eq_iff_iff, List.isPrefixOf_iff_prefix, List.isPrefixOf_iff_prefix,
    List.prefix_iff_eq_take, List.prefix_iff_eq_take, List.take_append_of_le_length h]

/-- Occurrence counting distributes over append when no occurrence can
straddle the boundary. -/
theorem cnt_append (P x y : List Char) (h : straddleFree P x = true) :
    cnt P (x ++ y) = cnt P x + cnt P y := by
  induction x with
  | nil => simp [cnt]
  | cons c x' ih =>
    rw [straddleFree, Bool.and_eq_true] at h
    have hstep : P.isPrefixOf (c :: (x' ++ y)) = P.isPrefixOf (c :: x') := by
      by_cases hle : P.length ≤ x'.length + 1
      · rw [← List.cons_append]
        exact isPrefixOf_append_of_le P (c :: x') y (by simpa using hle)
      · have h0 : ((c :: x').isPrefixOf P) = false := by
          have h1 := h.1
          rw [decide_eq_false hle, Bool.false_or, Bool.not_eq_true'] at h1
          exact h1
        have hright : P.isPrefixOf (c :: x') = false := by
          apply Bool.eq_false_iff.mpr
          intro hT
          rw [List.isPrefixOf_iff_prefix] at hT
          have := hT.length_le
          simp at this
          omega
        have hleft : P.isPrefixOf (c :: (x' ++ y)) = false := by
          apply Bool.eq_false_iff.mpr
          intro hT
          rw [List.isPrefixOf_iff_prefix] at hT
          have hpre1 : (c :: x') <+: (c :: (x' ++ y)) := by
            rw [← List.cons_append]
            exact List.prefix_append _ _
          have hupre : (c :: x') <+: P :=
            List.prefix_of_prefix_length_le hpre1 hT (by simp; omega)
          rw [← List.isPrefixOf_iff_prefix, h0] at hupre
          exact Bool.false_ne_true hupre
        rw [hleft, hright]
    rw [List.cons_append, cnt, cnt, hstep, ih h.2]
    exact (Nat.add_assoc _ _ _).symm

/-- Occurrence counting over a chunk decomposition is the sum of the
per-chunk counts when every chunk is straddle-free. -/
theorem cnt_joinAll (P : List Char) (ks : List (List Char))
    (h : ∀ k ∈ ks, straddleFree P k = true) :
    cnt P (joinAll ks) = (ks.map (cnt P)).sum := by
  induction ks with
  | nil => simp [joinAll, cnt]
  | cons k ks ih =>
    rw [joinAll, cnt_append P k _ (h k (List.mem_cons_self k ks)), List.map_cons, List.sum_cons,
      ih (fun k' hk' => h k' (List.mem_cons_of_mem k hk'))]

/-- C9 witness: exit code 1 with stderr "Service DEV does Not Exist" is
classified as success; exit code 1 with an unrelated stderr is a failure. -/
theorem disconnect_not_found_is_success_witness :
    disconnect (.ran 1 "Service DEV does Not Exist") = true ∧
    disconnect .binaryMissing = false ∧
    disconnect (.ran 1 "permission denied") = false := by
  refine ⟨?_, (disconnect_not_found_is_success 1 "x" (by decide)).2.1, ?_⟩
  · exact (disconnect_not_found_is_success 1 "Service DEV does Not Exist" (by decide)).1.mpr
      (Or.inr rfl)
  · have hiff := (disconnect_not_found_is_success 1 "permission denied" (by decide)).1
    revert hiff
    rw [show strContains (lowerStr "permission denied") "not found" = false from rfl,
      show strContains (lowerStr "permission denied") "does not exist" = false from rfl]
    intro hiff
    cases hd : disconnect (.ran 1 "permission denied")
    · rfl
    · rcases hiff.mp hd with h1 | h1 <;> exact absurd h1 (by simp)

/-- C4: with `execute=False`, `setup` reports `status = "sql_generated"` and
its SQL text contains exactly one `CREATE COMPUTE POOL IF NOT EXISTS`
statement, naming the resolved pool name and carrying the given instance
family and node bounds.  The `SqlSafe` hypotheses say the interpolated
arguments do not themselves contain (or complete) the pattern — the spec's
"callers must supply safe identifiers". -/
theorem setup_pool_statement
    (project_name database instance_family stage_name : String)
    (pool_name : Option String) (eai_name : String) (allow_ports : Option (List Int))
    (min_nodes max_nodes : Int)
    (hp : SqlSafe poolPat project_name) (hd : SqlSafe poolPat database)
    (hf : SqlSafe poolPat instance_family) (hs : SqlSafe poolPat stage_name)
    (hpo : SqlSafe poolPat (resolvePoolName pool_name project_name))
    (he : SqlSafe poolPat eai_name)
    (hpl : SqlSafe poolPat (portListSql (resolvePorts allow_ports)))
    (hmn : SqlSafe poolPat (toString min_nodes))
    (hmx : SqlSafe poolPat (toString max_nodes)) :
    (setup project_name database instance_family stage_name pool_name eai_name
        allow_ports min_nodes max_nodes false).status = "sql_generated" ∧
    cnt poolPat (setup project_name database instance_family stage_name pool_name eai_name
        allow_ports min_nodes max_nodes false).sql.data = 1 ∧
    ∃ u v, (setup project_name database instance_family stage_name pool_name eai_name
        allow_ports min_nodes max_nodes false).sql =
      u ++ ("CREATE COMPUTE POOL IF NOT EXISTS " ++ resolvePoolName pool_name project_name ++
        "\n  MIN_NODES = " ++ toString min_nodes ++ "\n  MAX_NODES = " ++ toString max_nodes ++
        "\n  INSTANCE_FAMILY = " ++ instance_family ++ ";") ++ v := by
  refine ⟨rfl, ?_, ?_⟩
  · have hdecomp : (setup project_name database instance_family stage_name pool_name eai_name
        allow_ports min_nodes max_nodes false).sql.data = joinAll
        ["-- Snowflake Remote Dev Setup\n-- Project: ".data,
         project_name.data,
         "\n\nUSE ROLE ACCOUNTADMIN;\n\n-- Create Database\nCREATE DATABASE IF NOT EXISTS ".data,
         database.data,
         ";\nUSE DATABASE ".data,
         database.data,
         ";\n\n-- Create Network Rule for External Access\nCREATE OR REPLACE NETWORK RULE ".data,
         eai_name.data,
         "_rule\n  MODE = EGRESS\n  TYPE = HOST_PORT\n  VALUE_LIST = (".data,
         (portListSql (resolvePorts allow_ports)).data,
         ");\n\n-- Create External Access Integration\nCREATE OR REPLACE EXTERNAL ACCESS INTEGRATION ".data,
         eai_name.data,
         "\n  ALLOWED_NETWORK_RULES = (".data,
         eai_name.data,
         "_rule)\n  ENABLED = true;\n\n-- Grant permissions\nGRANT USAGE ON INTEGRATION ".data,
         eai_name.data,
         " TO ROLE ACCOUNTADMIN;\n\n-- Create Stage for Persistent Storage\nCREATE STAGE IF NOT EXISTS ".data,
         stage_name.data,
         "\n  ENCRYPTION = (TYPE = 'SNOWFLAKE_SSE');\n\n-- Create Compute Pool\n".data,
         "CREATE COMPUTE POOL IF NOT EXISTS ".data,
         (resolvePoolName pool_name project_name).data,
         "\n  MIN_NODES = ".data,
         (toString min_nodes).data,
         "\n  MAX_NODES = ".data,
         (toString max_nodes).data,
         "\n  INSTANCE_FAMILY = ".data,
         instance_family.data,
         ";".data,
         "\n\n-- Show created resources\nSHOW COMPUTE POOLS LIKE '".data,
         (resolvePoolName pool_name project_name).data,
         "';\n".data] := by
      simp [setup, setupSql, joinAll, String.data_append, List.append_assoc]
    rw [hdecomp, cnt_joinAll]
    · simp only [List.map_cons, List.map_nil, List.sum_cons, List.sum_nil]
      rw [hp.1, hd.1, hf.1, hs.1, hpo.1, he.1, hpl.1, hmn.1, hmx.1]
      decide
    · intro k hk
      simp only [List.mem_cons, List.not_mem_nil, or_false] at hk
      rcases hk with rfl | rfl | rfl | rfl | rfl | rfl | rfl | rfl | rfl | rfl | rfl | rfl |
        rfl | rfl | rfl | rfl | rfl | rfl | rfl | rfl | rfl | rfl | rfl | rfl | rfl | rfl |
        rfl | rfl | rfl | rfl | rfl <;>
        first
          | exact hp.2 | exact hd.2 | exact hf.2 | exact hs.2 | exact hpo.2
          | exact he.2 | exact hpl.2 | exact hmn.2 | exact hmx.2 | decide
  · refine ⟨"-- Snowflake Remote Dev Setup\n-- Project: " ++ project_name ++
      "\n\nUSE ROLE ACCOUNTADMIN;\n\n-- Create Database\nCREATE DATABASE IF NOT EXISTS " ++
      database ++ ";\nUSE DATABASE " ++ database ++
      ";\n\n-- Create Network Rule for External Access\nCREATE OR REPLACE NETWORK RULE " ++
      eai_name ++ "_rule\n  MODE = EGRESS\n  TYPE = HOST_PORT\n  VALUE_LIST = (" ++
      portListSql (resolvePorts allow_ports) ++
      ");\n\n-- Create External Access Integration\nCREATE OR REPLACE EXTERNAL ACCESS INTEGRATION " ++
      eai_name ++ "\n  ALLOWED_NETWORK_RULES = (" ++ eai_name ++
      "_rule)\n  ENABLED = true;\n\n-- Grant permissions\nGRANT USAGE ON INTEGRATION " ++
      eai_name ++ " TO ROLE ACCOUNTADMIN;\n\n-- Create Stage for Persistent Storage\nCREATE STAGE IF NOT EXISTS " ++
      stage_name ++ "\n  ENCRYPTION = (TYPE = 'SNOWFLAKE_SSE');\n\n-- Create Compute Pool\n",
      "\n\n-- Show created resources\nSHOW COMPUTE POOLS LIKE '" ++
      resolvePoolName pool_name project_name ++ "';\n", ?_⟩
    apply String.ext
    simp [setup, setupSql, String.data_append, List.append_assoc]

/-- C4 witness: `setup_pool_statement` at the documented defaults. -/
theorem setup_pool_statement_witness :
    (setup "ml_accelerator" "ML_ACCELERATOR" "CPU_X64_M" "DEV_STAGE" none
        "ALLOW_ALL_INTEGRATION" none 1 1 false).status = "sql_generated" ∧
    cnt poolPat (setup "ml_accelerator" "ML_ACCELERATOR" "CPU_X64_M" "DEV_STAGE" none
        "ALLOW_ALL_INTEGRATION" none 1 1 false).sql.data = 1 :=
  have H := setup_pool_statement "ml_accelerator" "ML_ACCELERATOR" "CPU_X64_M" "DEV_STAGE"
    none "ALLOW_ALL_INTEGRATION" none 1 1
    ⟨by decide, by decide⟩ ⟨by decide, by decide⟩ ⟨by decide, by decide⟩
    ⟨by decide, by decide⟩ ⟨by decide, by decide⟩ ⟨by decide, by decide⟩
    ⟨by decide, by decide⟩ ⟨by decide, by decide⟩ ⟨by decide, by decide⟩
  ⟨H.1, H.2.1⟩


/-- C5: with the default `keep_stage=True, keep_database=True`, the teardown
SQL contains no `DROP STAGE` and no `DROP DATABASE` statement; with
`keep_stage=False` it contains exactly one `DROP STAGE IF EXISTS` statement
referencing the configured stage name (under `DropSafe`: the interpolated
identifiers neither contain nor complete the counted patterns). -/
theorem teardown_keep_flags (project_name database : String) (pool_name : Option String)
    (stage_name eai_name : String) (keep_database execute : Bool)
    (hp : DropSafe project_name) (hd : DropSafe database)
    (hpo : DropSafe (resolvePoolName pool_name project_name))
    (hs : DropSafe stage_name) (he : DropSafe eai_name) :
    cnt dropStagePat
      (teardown project_name database pool_name stage_name eai_name true true execute).sql.data = 0 ∧
    cnt dropDatabasePat
      (teardown project_name database pool_name stage_name eai_name true true execute).sql.data = 0 ∧
    cnt dropStageStmtPat
      (teardown project_name database pool_name stage_name eai_name false keep_database
        execute).sql.data = 1 ∧
    ∃ u v, (teardown project_name database pool_name stage_name eai_name false keep_database
        execute).sql =
      u ++ ("DROP STAGE IF EXISTS " ++ database ++ ".PUBLIC." ++ stage_name ++ ";") ++ v := by
  have hA : (teardown project_name database pool_name stage_name eai_name true true
      execute).sql.data = joinAll
        ["-- Teardown for project: ".data,
         project_name.data,
         "\n".data,
         "USE ROLE ACCOUNTADMIN;".data,
         "\n".data,
         "\n-- Suspend and drop compute pool".data,
         "\n".data,
         "ALTER COMPUTE POOL IF EXISTS ".data,
         (resolvePoolName pool_name project_name).data,
         " STOP ALL;".data,
         "\n".data,
         "ALTER COMPUTE POOL IF EXISTS ".data,
         (resolvePoolName pool_name project_name).data,
         " SUSPEND;".data,
         "\n".data,
         "DROP COMPUTE POOL IF EXISTS ".data,
         (resolvePoolName pool_name project_name).data,
         ";".data,
         "\n".data,
         "\n-- Drop External Access Integration".data,
         "\n".data,
         "DROP INTEGRATION IF EXISTS ".data,
         eai_name.data,
         ";".data,
         "\n".data,
         "DROP NETWORK RULE IF EXISTS ".data,
         database.data,
         ".PUBLIC.".data,
         eai_name.data,
         "_rule;".data] := by
    simp [teardown, teardownSqlParts, joinWith, joinAll, String.data_append, List.append_assoc]
  refine ⟨?_, ?_, ?_, ?_⟩
  · rw [hA, cnt_joinAll]
    · simp only [List.map_cons, List.map_nil, List.sum_cons, List.sum_nil]
      rw [hp.1.1, hd.1.1, hpo.1.1, he.1.1]
      decide
    · intro k hk
      simp only [List.mem_cons, List.not_mem_nil, or_false] at hk
      rcases hk with rfl | rfl | rfl | rfl | rfl | rfl | rfl | rfl | rfl | rfl | rfl | rfl |
        rfl | rfl | rfl | rfl | rfl | rfl | rfl | rfl | rfl | rfl | rfl | rfl |
        rfl | rfl | rfl | rfl | rfl | rfl <;>
        first
          | exact hp.1.2 | exact hd.1.2 | exact hpo.1.2 | exact hs.1.2
          | exact he.1.2 | decide
  · rw [hA, cnt_joinAll]
    · simp only [List.map_cons, List.map_nil, List.sum_cons, List.sum_nil]
      rw [hp.2.1.1, hd.2.1.1, hpo.2.1.1, he.2.1.1]
      decide
    · intro k hk
      simp only [List.mem_cons, List.not_mem_nil, or_false] at hk
      rcases hk with rfl | rfl | rfl | rfl | rfl | rfl | rfl | rfl | rfl | rfl | rfl | rfl |
        rfl | rfl | rfl | rfl | rfl | rfl | rfl | rfl | rfl | rfl | rfl | rfl |
        rfl | rfl | rfl | rfl | rfl | rfl <;>
        first
          | exact hp.2.1.2 | exact hd.2.1.2 | exact hpo.2.1.2 | exact hs.2.1.2
          | exact he.2.1.2 | decide
  · cases keep_database
    · have hB : (teardown project_name database pool_name stage_name eai_name false false
          execute).sql.data = joinAll
            ["-- Teardown for project: ".data,
         project_name.data,
         "\n".data,
         "USE ROLE ACCOUNTADMIN;".data,
         "\n".data,
         "\n-- Suspend and drop compute pool".data,
         "\n".data,
         "ALTER COMPUTE POOL IF EXISTS ".data,
         (resolvePoolName pool_name project_name).data,
         " STOP ALL;".data,
         "\n".data,
         "ALTER COMPUTE POOL IF EXISTS ".data,
         (resolvePoolName pool_name project_name).data,
         " SUSPEND;".data,
         "\n".data,
         "DROP COMPUTE POOL IF EXISTS ".data,
         (resolvePoolName pool_name project_name).data,
         ";".data,
         "\n".data,
         "\n-- Drop External Access Integration".data,
         "\n".data,
         "DROP INTEGRATION IF EXISTS ".data,
         eai_name.data,
         ";".data,
         "\n".data,
         "DROP NETWORK RULE IF EXISTS ".data,
         database.data,
         ".PUBLIC.".data,
         eai_name.data,
         "_rule;".data,
         "\n".data,
         "\n-- Drop Stage (WARNING: deletes all files!)".data,
         "\n".data,
         "DROP STAGE IF EXISTS ".data,
         database.data,
         ".PUBLIC.".data,
         stage_name.data,
         ";".data,
         "\n".data,
         "\n-- Drop Database".data,
         "\n".data,
         "DROP DATABASE IF EXISTS ".data,
         database.data,
         ";".data] := by
        simp [teardown, teardownSqlParts, joinWith, joinAll, String.data_append, List.append_assoc]
      rw [hB, cnt_joinAll]
      · simp only [List.map_cons, List.map_nil, List.sum_cons, List.sum_nil]
        rw [hp.2.2.1, hd.2.2.1, hpo.2.2.1, hs.2.2.1, he.2.2.1]
        decide
      · intro k hk
        simp only [List.mem_cons, List.not_mem_nil, or_false] at hk
        rcases hk with rfl | rfl | rfl | rfl | rfl | rfl | rfl | rfl | rfl | rfl | rfl | rfl |
        rfl | rfl | rfl | rfl | rfl | rfl | rfl | rfl | rfl | rfl | rfl | rfl |
        rfl | rfl | rfl | rfl | rfl | rfl | rfl | rfl | rfl | rfl | rfl | rfl |
        rfl | rfl | rfl | rfl | rfl | rfl | rfl | rfl <;>
          first
          | exact hp.2.2.2 | exact hd.2.2.2 | exact hpo.2.2.2 | exact hs.2.2.2
          | exact he.2.2.2 | decide
    · have hB : (teardown project_name database pool_name stage_name eai_name false true
          execute).sql.data = joinAll
            ["-- Teardown for project: ".data,
         project_name.data,
         "\n".data,
         "USE ROLE ACCOUNTADMIN;".data,
         "\n".data,
         "\n-- Suspend and drop compute pool".data,
         "\n".data,
         "ALTER COMPUTE POOL IF EXISTS ".data,
         (resolvePoolName pool_name project_name).data,
         " STOP ALL;".data,
         "\n".data,
         "ALTER COMPUTE POOL IF EXISTS ".data,
         (resolvePoolName pool_name project_name).data,
         " SUSPEND;".data,
         "\n".data,
         "DROP COMPUTE POOL IF EXISTS ".data,
         (resolvePoolName pool_name project_name).data,
         ";".data,
         "\n".data,
         "\n-- Drop External Access Integration".data,
         "\n".data,
         "DROP INTEGRATION IF EXISTS ".data,
         eai_name.data,
         ";".data,
         "\n".data,
         "DROP NETWORK RULE IF EXISTS ".data,
         database.data,
         ".PUBLIC.".data,
         eai_name.data,
         "_rule;".data,
         "\n".data,
         "\n-- Drop Stage (WARNING: deletes all files!)".data,
         "\n".data,
         "DROP STAGE IF EXISTS ".data,
         database.data,
         ".PUBLIC.".data,
         stage_name.data,
         ";".data] := by
        simp [teardown, teardownSqlParts, joinWith, joinAll, String.data_append, List.append_assoc]
      rw [hB, cnt_joinAll]
      · simp only [List.map_cons, List.map_nil, List.sum_cons, List.sum_nil]
        rw [hp.2.2.1, hd.2.2.1, hpo.2.2.1, hs.2.2.1, he.2.2.1]
        decide
      · intro k hk
        simp only [List.mem_cons, List.not_mem_nil, or_false] at hk
        rcases hk with rfl | rfl | rfl | rfl | rfl | rfl | rfl | rfl | rfl | rfl | rfl | rfl |
        rfl | rfl | rfl | rfl | rfl | rfl | rfl | rfl | rfl | rfl | rfl | rfl |
        rfl | rfl | rfl | rfl | rfl | rfl | rfl | rfl | rfl | rfl | rfl | rfl |
        rfl | rfl <;>
          first
          | exact hp.2.2.2 | exact hd.2.2.2 | exact hpo.2.2.2 | exact hs.2.2.2
          | exact he.2.2.2 | decide
  · cases keep_database
    · refine ⟨"-- Teardown for project: " ++ project_name ++ "\n" ++ "USE ROLE ACCOUNTADMIN;" ++
        "\n" ++ "\n-- Suspend and drop compute pool" ++ "\n" ++
        "ALTER COMPUTE POOL IF EXISTS " ++ resolvePoolName pool_name project_name ++
        " STOP ALL;" ++ "\n" ++ "ALTER COMPUTE POOL IF EXISTS " ++
        resolvePoolName pool_name project_name ++ " SUSPEND;" ++ "\n" ++
        "DROP COMPUTE POOL IF EXISTS " ++ resolvePoolName pool_name project_name ++ ";" ++
        "\n" ++ "\n-- Drop External Access Integration" ++ "\n" ++
        "DROP INTEGRATION IF EXISTS " ++ eai_name ++ ";" ++ "\n" ++
        "DROP NETWORK RULE IF EXISTS " ++ database ++ ".PUBLIC." ++ eai_name ++ "_rule;" ++
        "\n" ++ "\n-- Drop Stage (WARNING: deletes all files!)" ++ "\n",
        "\n" ++ "\n-- Drop Database" ++ "\n" ++ "DROP DATABASE IF EXISTS " ++ database ++ ";",
        ?_⟩
      apply String.ext
      simp [teardown, teardownSqlParts, joinWith, joinAll, String.data_append, List.append_assoc]
    · refine ⟨"-- Teardown for project: " ++ project_name ++ "\n" ++ "USE ROLE ACCOUNTADMIN;" ++
        "\n" ++ "\n-- Suspend and drop compute pool" ++ "\n" ++
        "ALTER COMPUTE POOL IF EXISTS " ++ resolvePoolName pool_name project_name ++
        " STOP ALL;" ++ "\n" ++ "ALTER COMPUTE POOL IF EXISTS " ++
        resolvePoolName pool_name project_name ++ " SUSPEND;" ++ "\n" ++
        "DROP COMPUTE POOL IF EXISTS " ++ resolvePoolName pool_name project_name ++ ";" ++
        "\n" ++ "\n-- Drop External Access Integration" ++ "\n" ++
        "DROP INTEGRATION IF EXISTS " ++ eai_name ++ ";" ++ "\n" ++
        "DROP NETWORK RULE IF EXISTS " ++ database ++ ".PUBLIC." ++ eai_name ++ "_rule;" ++
        "\n" ++ "\n-- Drop Stage (WARNING: deletes all files!)" ++ "\n", "", ?_⟩
      apply String.ext
      simp [teardown, teardownSqlParts, joinWith, joinAll, String.data_append, List.append_assoc]

/-- C5 witness: `teardown_keep_flags` at the documented defaults. -/
theorem teardown_keep_flags_witness :
    cnt dropStagePat (teardown "ml_dev" "ML_DEV" none "DEV_STAGE" "ALLOW_ALL_INTEGRATION"
      true true false).sql.data = 0 ∧
    cnt dropStageStmtPat (teardown "ml_dev" "ML_DEV" none "DEV_STAGE" "ALLOW_ALL_INTEGRATION"
      false true false).sql.data = 1 :=
  have H := teardown_keep_flags "ml_dev" "ML_DEV" none "DEV_STAGE" "ALLOW_ALL_INTEGRATION"
    true false
    ⟨⟨by decide, by decide⟩, ⟨by decide, by decide⟩, by decide, by decide⟩
    ⟨⟨by decide, by decide⟩, ⟨by decide, by decide⟩, by decide, by decide⟩
    ⟨⟨by decide, by decide⟩, ⟨by decide, by decide⟩, by decide, by decide⟩
    ⟨⟨by decide, by decide⟩, ⟨by decide, by decide⟩, by decide, by decide⟩
    ⟨⟨by decide, by decide⟩, ⟨by decide, by decide⟩, by decide, by decide⟩
  ⟨H.1, H.2.2.1⟩

/-- C1 (evidence for the code bug): the execution filter
`not s.strip().startswith("--")` is applied to whole ';'-fragments, and in the
rendered templates almost every statement shares its fragment with the SQL
comment preceding it.  At the default arguments, the executed-statement list
of `setup(execute=True)` is just `USE DATABASE ML_ACCELERATOR` — although the
rendered SQL does contain the compute-pool creation statement and `status`
still reports `"complete"` — and teardown attempts only three of its seven
statements; the per-statement best-effort loop (`runStatements`) then attempts
exactly the filtered list, continuing past failures. -/
theorem execute_filter_drops_statements :
    splitStatements (setup "ml_accelerator" "ML_ACCELERATOR" "CPU_X64_M" "DEV_STAGE" none
        "ALLOW_ALL_INTEGRATION" none 1 1 true).sql = ["USE DATABASE ML_ACCELERATOR"] ∧
    strContains (setup "ml_accelerator" "ML_ACCELERATOR" "CPU_X64_M" "DEV_STAGE" none
        "ALLOW_ALL_INTEGRATION" none 1 1 true).sql
      "CREATE COMPUTE POOL IF NOT EXISTS ml_accelerator_pool" = true ∧
    (setup "ml_accelerator" "ML_ACCELERATOR" "CPU_X64_M" "DEV_STAGE" none
        "ALLOW_ALL_INTEGRATION" none 1 1 true).status = "complete" ∧
    splitStatements (teardown "ml_dev" "ML_DEV" none "DEV_STAGE" "ALLOW_ALL_INTEGRATION"
        true true true).sql =
      ["ALTER COMPUTE POOL IF EXISTS ml_dev_pool SUSPEND",
       "DROP COMPUTE POOL IF EXISTS ml_dev_pool",
       "DROP NETWORK RULE IF EXISTS ML_DEV.PUBLIC.ALLOW_ALL_INTEGRATION_rule"] ∧
    runStatements (fun _ => false)
        (splitStatements (setup "ml_accelerator" "ML_ACCELERATOR" "CPU_X64_M" "DEV_STAGE" none
          "ALLOW_ALL_INTEGRATION" none 1 1 true).sql) =
      [("USE DATABASE ML_ACCELERATOR", false)] := by
  refine ⟨by decide, by decide, rfl, by decide, by decide⟩

end Sfml
